import Mathlib

/-!
Shallow embedding of
`airbyte-webapp/src/pages/SettingsPage/pages/ConnectorsPage/components/ConnectorsView.tsx`.

The component derives table column descriptors and header controls from a list of
connector definitions and boolean feature flags.  Optional TypeScript fields are
modelled by `Option`; JavaScript truthiness on optional strings and booleans is
made explicit (`jsOrElse`, `Option.getD false`).  Rendered output is modelled as
plain data: the JSX a render function produces is abstracted to the record of
props it passes to its child components, with `none` standing for the `null`
or `false` branches that render nothing.
-/

namespace ConnectorsView

/-- A connector definition record as read by the component: the fields of
`SourceDefinitionRead` and `DestinationDefinitionRead` the file accesses.
The field `definitionId` stands for the identifier extracted by the external
helper `Connector.id`, modelled from the spec as the connector-definition
identifier that keys `feedbackList`. -/
structure ConnectorDefinition where
  definitionId : String
  name : String
  icon : Option String
  dockerRepository : String
  dockerImageTag : String
  latestDockerImageTag : Option String
  releaseStage : Option String
  documentationUrl : Option String
  deriving DecidableEq

/-- The two feature flags the component resolves with `useFeature`. -/
structure Features where
  allowUpdateConnectors : Bool
  allowUploadCustomImage : Bool
  deriving DecidableEq

/-- The props of `ConnectorsViewProps` that carry data (callbacks and the
display-copy selector `type` are omitted: they do not affect which elements
render).  `hasNewConnectorVersion` is an optional boolean prop and `error` an
optional `Error` value, of which only presence is observed (`!!error`). -/
structure ConnectorsViewProps where
  isUpdateSuccess : Bool
  hasNewConnectorVersion : Option Bool
  usedConnectorsDefinitions : List ConnectorDefinition
  connectorsDefinitions : List ConnectorDefinition
  loading : Bool
  error : Option String
  feedbackList : List (String × String)
  deriving DecidableEq

/-- JavaScript `a || b` where `a` is an optional string: the fallback `b` is
taken when `a` is `undefined` or the empty string (the falsy string). -/
def jsOrElse (a : Option String) (b : String) : String :=
  match a with
  | none => b
  | some s => if s = "" then b else s

/-- `showVersionUpdateColumn` (lines 56 to 67): whether the optional
change-version column appears for a given definitions list. -/
def showVersionUpdateColumn (features : Features) (definitions : List ConnectorDefinition) : Bool :=
  if features.allowUpdateConnectors then
    true
  else if features.allowUploadCustomImage
      && definitions.any (fun definition => definition.releaseStage == some "custom") then
    true
  else
    false

/-- Which cell renderer a column descriptor carries. -/
inductive CellRenderer
  | connectorCell
  | imageCell
  | defaultCell
  | versionCell
  deriving DecidableEq

/-- A table column descriptor: accessor key, optional relative width, the
`collapse` flag, and which cell renderer it uses. -/
structure Column where
  accessor : String
  customWidth : Option Nat
  collapse : Bool
  renderer : CellRenderer
  deriving DecidableEq

/-- `renderColumns` (lines 69 to 122): the ordered column list, with the
change-version column spread in only when the boolean argument (named
`showVersionUpdateColumn` in the source, shadowing the policy) is true. -/
def renderColumns (showColumn : Bool) : List Column :=
  [ { accessor := "name", customWidth := some 25, collapse := false,
      renderer := CellRenderer.connectorCell }
  , { accessor := "dockerRepository", customWidth := some 36, collapse := false,
      renderer := CellRenderer.imageCell }
  , { accessor := "dockerImageTag", customWidth := some 10, collapse := false,
      renderer := CellRenderer.defaultCell } ]
  ++ (if showColumn then
        [ { accessor := "latestDockerImageTag", customWidth := none, collapse := true,
            renderer := CellRenderer.versionCell } ]
      else [])

/-- The props passed to `VersionCell` by the change-version column cell. -/
structure VersionCellProps where
  version : String
  id : String
  feedback : Option String
  currentVersion : String
  deriving DecidableEq

/-- The `Cell` of the change-version column (lines 107 to 116): renders a
`VersionCell` when update is globally allowed or the row is a custom connector
under the upload capability, and `null` otherwise.  `cell.value` is the value
of the accessor `latestDockerImageTag` on the row. -/
def changeVersionCell (features : Features) (feedbackList : List (String × String))
    (row : ConnectorDefinition) : Option VersionCellProps :=
  if features.allowUpdateConnectors
      || (features.allowUploadCustomImage && row.releaseStage == some "custom") then
    some
      { version := jsOrElse row.latestDockerImageTag row.dockerImageTag
      , id := row.definitionId
      , feedback := feedbackList.lookup row.definitionId
      , currentVersion := row.dockerImageTag }
  else
    none

/-- The two table sections of the page. -/
inductive Section
  | used
  | available
  deriving DecidableEq

/-- The props passed to `UpgradeAllButton` when it renders. -/
structure UpgradeAllButtonProps where
  isLoading : Bool
  hasError : Bool
  hasSuccess : Bool
  deriving DecidableEq

/-- The contents of the header-controls container: whether `CreateConnector`
renders, and the props of `UpgradeAllButton` when it renders. -/
structure HeaderControls where
  createConnector : Bool
  upgradeAll : Option UpgradeAllButtonProps
  deriving DecidableEq

/-- `renderHeaderControls` (lines 124 to 138): the controls container renders
for the used section when the used list is non-empty and for the available
section when it is empty; inside it, `CreateConnector` is gated on the upload
capability and `UpgradeAllButton` on new versions or a past success together
with the update capability. -/
def renderHeaderControls (features : Features) (props : ConnectorsViewProps)
    (sec : Section) : Option HeaderControls :=
  if (sec == Section.used && decide (props.usedConnectorsDefinitions.length > 0))
      || (sec == Section.available && props.usedConnectorsDefinitions.length == 0) then
    some
      { createConnector := features.allowUploadCustomImage
      , upgradeAll :=
          if (props.hasNewConnectorVersion.getD false || props.isUpdateSuccess)
              && features.allowUpdateConnectors then
            some
              { isLoading := props.loading
              , hasError := props.error.isSome && !props.loading
              , hasSuccess := props.isUpdateSuccess }
          else
            none }
  else
    none

/-- A sorting descriptor passed to the `Table` component; the source object
`\x7b id: "name" \x7d` carries only the `id` key. -/
structure SortRule where
  id : String
  deriving DecidableEq

/-- `defaultSorting` (line 35). -/
def defaultSorting : List SortRule :=
  [ { id := "name" } ]

/-- One rendered table block: which section it is, its header controls, the
columns handed to `Table`, the row data, and the sorting descriptors. -/
structure BlockView where
  sec : Section
  headerControls : Option HeaderControls
  columns : List Column
  data : List ConnectorDefinition
  sortBy : List SortRule
  deriving DecidableEq

/-- The return of `ConnectorsView` (lines 140 to 171) as the ordered list of
rendered blocks.  `available` is the result of the external collaborator
`useAvailableConnectorDefinitions` applied to `props.connectorsDefinitions`
and the workspace, which this component consumes as given. -/
def connectorsView (features : Features) (props : ConnectorsViewProps)
    (available : List ConnectorDefinition) : List BlockView :=
  (if props.usedConnectorsDefinitions.length > 0 then
    [ { sec := Section.used
      , headerControls := renderHeaderControls features props Section.used
      , columns := renderColumns (showVersionUpdateColumn features props.usedConnectorsDefinitions)
      , data := props.usedConnectorsDefinitions
      , sortBy := defaultSorting } ]
  else [])
  ++
  [ { sec := Section.available
    , headerControls := renderHeaderControls features props Section.available
    , columns := renderColumns (showVersionUpdateColumn features available)
    , data := available
    , sortBy := defaultSorting } ]

/-- A sample definition with release stage "custom" used by witnesses. -/
def sampleCustomDefinition : ConnectorDefinition :=
  { definitionId := "def-1"
  , name := "Alpha"
  , icon := none
  , dockerRepository := "airbyte/source-alpha"
  , dockerImageTag := "0.1.0"
  , latestDockerImageTag := some "0.2.0"
  , releaseStage := some "custom"
  , documentationUrl := none }

/-- Sample props used by witnesses: empty used list, an error present while
not loading, and a new connector version flagged. -/
def sampleProps : ConnectorsViewProps :=
  { isUpdateSuccess := false
  , hasNewConnectorVersion := some true
  , usedConnectorsDefinitions := []
  , connectorsDefinitions := [sampleCustomDefinition]
  , loading := false
  , error := some "boom"
  , feedbackList := [] }

/-- Claim C1: the upgrade-column visibility policy returns true exactly when
the global connector-update capability is enabled, or else when the
custom-image upload capability is enabled and at least one definition in the
list has release stage "custom"; otherwise it returns false. -/
theorem showVersionUpdateColumn_policy (features : Features)
    (definitions : List ConnectorDefinition) :
    showVersionUpdateColumn features definitions = true ↔
      (features.allowUpdateConnectors = true ∨
        (features.allowUploadCustomImage = true ∧
          ∃ d ∈ definitions, d.releaseStage = some "custom")) := by
  cases h : features.allowUpdateConnectors <;>
    simp [showVersionUpdateColumn, h, List.any_eq_true]

/-- Claim C2: `renderColumns` always produces the name, docker-repository and
current-version columns in that order, and appends the change-version column,
with accessor `latestDockerImageTag`, exactly when its boolean argument is
true. -/
theorem renderColumns_shape (b : Bool) :
    (renderColumns b).map Column.accessor =
        ["name", "dockerRepository", "dockerImageTag"]
          ++ (if b then ["latestDockerImageTag"] else []) ∧
      ((renderColumns b).any (fun c => c.accessor == "latestDockerImageTag") = b) := by
  cases b <;> exact ⟨rfl, by decide⟩

/-- Claim C3: the change-version cell renders a `VersionCell` for a row
exactly when the global update capability is enabled, or custom uploads are
allowed and the row has release stage "custom"; otherwise it renders nothing. -/
theorem changeVersionCell_visibility (features : Features)
    (feedbackList : List (String × String)) (row : ConnectorDefinition) :
    (changeVersionCell features feedbackList row).isSome = true ↔
      (features.allowUpdateConnectors = true ∨
        (features.allowUploadCustomImage = true ∧ row.releaseStage = some "custom")) := by
  cases h : features.allowUpdateConnectors <;>
    simp [changeVersionCell, h]

/-- For an optional boolean, JavaScript truthiness holds exactly when the value
is present and true. -/
theorem getD_false_eq_true_iff (o : Option Bool) : o.getD false = true ↔ o = some true := by
  cases o <;> simp

/-- Claim C4: the header controls render for the used section exactly when the
used list is non-empty and for the available section exactly when it is empty;
the two outcomes are mutually exclusive and exhaustive, so the controls attach
to exactly one section. -/
theorem renderHeaderControls_sections (features : Features) (props : ConnectorsViewProps) :
    ((renderHeaderControls features props Section.used).isSome = true ↔
        props.usedConnectorsDefinitions ≠ []) ∧
      ((renderHeaderControls features props Section.available).isSome = true ↔
        props.usedConnectorsDefinitions = []) ∧
      ((renderHeaderControls features props Section.used).isSome
        = !(renderHeaderControls features props Section.available).isSome) := by
  cases h : props.usedConnectorsDefinitions <;>
    simp [renderHeaderControls, h]

/-- Claim C5: whenever the header-controls container renders, the
create-connector control inside it renders exactly when the custom-image
upload capability is enabled; with the capability off it never renders, for
every list content and every value of the other flags. -/
theorem createConnector_gating (features : Features) (props : ConnectorsViewProps)
    (sec : Section) (c : HeaderControls)
    (h : renderHeaderControls features props sec = some c) :
    c.createConnector = features.allowUploadCustomImage := by
  unfold renderHeaderControls at h
  split at h
  · cases h
    rfl
  · exact Option.noConfusion h

/-- Witness for C5 at concrete input. -/
theorem createConnector_gating_witness :
    HeaderControls.createConnector
        { createConnector := true
        , upgradeAll := some { isLoading := false, hasError := true, hasSuccess := false } }
      = Features.allowUploadCustomImage
          { allowUpdateConnectors := true, allowUploadCustomImage := true } :=
  createConnector_gating
    { allowUpdateConnectors := true, allowUploadCustomImage := true }
    sampleProps Section.available
    { createConnector := true
    , upgradeAll := some { isLoading := false, hasError := true, hasSuccess := false } }
    rfl

/-- Claim C6: whenever the header-controls container renders, the bulk-upgrade
control inside it renders exactly when a new connector version exists or a
previous bulk update succeeded, and the global update capability is enabled;
with both status flags false it never renders even under the update
capability. -/
theorem upgradeAll_gating (features : Features) (props : ConnectorsViewProps)
    (sec : Section) (c : HeaderControls)
    (h : renderHeaderControls features props sec = some c) :
    (c.upgradeAll.isSome = true ↔
      ((props.hasNewConnectorVersion = some true ∨ props.isUpdateSuccess = true) ∧
        features.allowUpdateConnectors = true)) := by
  unfold renderHeaderControls at h
  split at h
  · cases h
    simp only [HeaderControls.upgradeAll]
    split
    · rename_i hcond
      simp only [Bool.and_eq_true, Bool.or_eq_true, getD_false_eq_true_iff] at hcond
      simp [hcond]
    · rename_i hcond
      simp only [Bool.and_eq_true, Bool.or_eq_true, getD_false_eq_true_iff] at hcond
      simp only [Option.isSome_none]
      constructor
      · intro hfalse
        exact absurd hfalse (by simp)
      · intro hrhs
        exact absurd hrhs hcond
  · exact Option.noConfusion h

/-- Witness for C6 at concrete input. -/
theorem upgradeAll_gating_witness :
    ((HeaderControls.upgradeAll
          { createConnector := true
          , upgradeAll := some { isLoading := false, hasError := true, hasSuccess := false } }).isSome
        = true ↔
      ((sampleProps.hasNewConnectorVersion = some true ∨ sampleProps.isUpdateSuccess = true) ∧
        Features.allowUpdateConnectors
            { allowUpdateConnectors := true, allowUploadCustomImage := true } = true)) :=
  upgradeAll_gating
    { allowUpdateConnectors := true, allowUploadCustomImage := true }
    sampleProps Section.available
    { createConnector := true
    , upgradeAll := some { isLoading := false, hasError := true, hasSuccess := false } }
    rfl

/-- Claim C7: the page renders the manage-used-connectors block exactly when
the used list is non-empty, and always renders the manage-available-connectors
block, after the used block when both are present. -/
theorem connectorsView_blocks (features : Features) (props : ConnectorsViewProps)
    (available : List ConnectorDefinition) :
    (connectorsView features props available).map BlockView.sec =
      if props.usedConnectorsDefinitions.isEmpty then [Section.available]
      else [Section.used, Section.available] := by
  cases h : props.usedConnectorsDefinitions <;> simp [connectorsView, h]

/-- Claim C8: every rendered table block, used or available, is passed the
same default sorting descriptor list, the single descriptor on the `name`
accessor. -/
theorem connectorsView_sortBy (features : Features) (props : ConnectorsViewProps)
    (available : List ConnectorDefinition) :
    ((connectorsView features props available).all
        (fun b => b.sortBy == defaultSorting)) = true ∧
      defaultSorting = [ { id := "name" } ] := by
  refine ⟨?_, rfl⟩
  cases h : props.usedConnectorsDefinitions <;> simp [connectorsView, h]

/-- Claim C9: whenever the bulk-upgrade control renders, its error sub-state
is true exactly when an error value is present and loading is false, so an
error is never surfaced while a load is in progress. -/
theorem upgradeAll_hasError_policy (features : Features) (props : ConnectorsViewProps)
    (sec : Section) (c : HeaderControls) (u : UpgradeAllButtonProps)
    (h : renderHeaderControls features props sec = some c)
    (hu : c.upgradeAll = some u) :
    (u.hasError = true ↔ (props.error.isSome = true ∧ props.loading = false)) := by
  unfold renderHeaderControls at h
  split at h
  · cases h
    simp only [HeaderControls.upgradeAll] at hu
    split at hu
    · cases hu
      simp [UpgradeAllButtonProps.hasError, Bool.and_eq_true, Bool.not_eq_true']
    · exact Option.noConfusion hu
  · exact Option.noConfusion h

/-- Witness for C9 at concrete input. -/
theorem upgradeAll_hasError_policy_witness :
    (UpgradeAllButtonProps.hasError
          { isLoading := false, hasError := true, hasSuccess := false } = true ↔
      (sampleProps.error.isSome = true ∧ sampleProps.loading = false)) :=
  upgradeAll_hasError_policy
    { allowUpdateConnectors := true, allowUploadCustomImage := true }
    sampleProps Section.available
    { createConnector := true
    , upgradeAll := some { isLoading := false, hasError := true, hasSuccess := false } }
    { isLoading := false, hasError := true, hasSuccess := false }
    rfl rfl

/-- Claim C10: in every rendered change-version cell, the displayed version
falls back to the current docker image tag of the row when the latest tag is
absent or empty, and is the latest tag otherwise. -/
theorem versionCell_fallback (features : Features) (feedbackList : List (String × String))
    (row : ConnectorDefinition) (p : VersionCellProps)
    (h : changeVersionCell features feedbackList row = some p) :
    ((row.latestDockerImageTag = none ∨ row.latestDockerImageTag = some "") →
        p.version = row.dockerImageTag) ∧
      (∀ s, row.latestDockerImageTag = some s → s ≠ "" → p.version = s) := by
  unfold changeVersionCell at h
  split at h
  · cases h
    constructor
    · intro hcase
      rcases hcase with hnone | hempty
      · simp [VersionCellProps.version, jsOrElse, hnone]
      · simp [VersionCellProps.version, jsOrElse, hempty]
    · intro s hs hne
      simp [VersionCellProps.version, jsOrElse, hs, hne]
  · exact Option.noConfusion h

/-- Witness for C10 at concrete input. -/
theorem versionCell_fallback_witness :
    VersionCellProps.version
        { version := "0.2.0", id := "def-1", feedback := none, currentVersion := "0.1.0" }
      = "0.2.0" :=
  (versionCell_fallback
      { allowUpdateConnectors := true, allowUploadCustomImage := true }
      [] sampleCustomDefinition
      { version := "0.2.0", id := "def-1", feedback := none, currentVersion := "0.1.0" }
      rfl).2 "0.2.0" rfl (by decide)

end ConnectorsView
